import Mathlib

/-!
Shallow embedding of `src/working_api.js`: an Express service exposing a single
`POST /` endpoint that validates a request body, loads face-recognition models,
builds labeled face descriptors from a reference dataset, and matches each face
detected in a group image against them.

External effects (HTTP fetch, image decoding, the face-api.js detectors and the
per-net model loads, and the descriptor distance metric) are modelled as oracle
functions collected in an `Env` record.  JavaScript values are modelled by the
inductive `JSValue`; numbers are rationals.  The handler additionally returns a
trace of the external calls it issued, in order, so that sequencing properties
(model load before detection, validation before any network activity) can be
stated.
-/

namespace WorkingApi

/-- JavaScript-like values, as they appear in a parsed JSON request body and in
the objects the handler passes to `res.json`. -/
inductive JSValue : Type
  | undefined
  | null
  | bool (b : Bool)
  | num (n : Rat)
  | str (s : String)
  | arr (elems : List JSValue)
  | obj (fields : List (String × JSValue))

/-- Property lookup on an object's field list (first binding wins, as in a JS
object literal read back left-to-right). -/
def lookupField : List (String × JSValue) → String → JSValue
  | [], _ => .undefined
  | (k, v) :: rest, key => if k = key then v else lookupField rest key

/-- JS property access `value[key]`: objects yield the bound field or
`undefined`; every other value has no such own property, so `undefined`.
(`null`/`undefined` bases are only ever accessed via `destructure` below.) -/
def getField : JSValue → String → JSValue
  | .obj fs, key => lookupField fs key
  | _, _ => .undefined

/-- JS truthiness: `undefined`, `null`, `false`, `0` and `""` are falsy;
objects and arrays are always truthy. -/
def truthy : JSValue → Bool
  | .undefined => false
  | .null => false
  | .bool b => b
  | .num n => !(n == 0)
  | .str s => !(s == "")
  | .arr _ => true
  | .obj _ => true

/-- `Array.isArray`. -/
def isArray : JSValue → Bool
  | .arr _ => true
  | _ => false

/-- The element list of an array value (the handler only applies this after the
`Array.isArray` check succeeds). -/
def asArray : JSValue → List JSValue
  | .arr elems => elems
  | _ => []

mutual

/-- JS `toString` coercion (`id.toString()` in the source, and the URL-string
coercion `fetch` applies to its argument); arrays join their elements with
commas as `Array.prototype.toString` does. -/
def jsToString : JSValue → String
  | .str s => s
  | .num n => toString n
  | .bool b => if b then "true" else "false"
  | .null => "null"
  | .undefined => "undefined"
  | .arr elems => String.intercalate "," (jsToStringList elems)
  | .obj _ => "[object Object]"

/-- `jsToString` mapped over a list of values. -/
def jsToStringList : List JSValue → List String
  | [] => []
  | x :: xs => jsToString x :: jsToStringList xs

end

/-- The destructuring `const { id, imglink } = data` of the source: throws a
TypeError when `data` is `null` or `undefined`; on any other value reads the
`id` and `imglink` properties (which are `undefined` on non-objects). -/
def destructure : JSValue → Except String (JSValue × JSValue)
  | .null => .error "Cannot destructure property id of null"
  | .undefined => .error "Cannot destructure property id of undefined"
  | .obj fs => .ok (lookupField fs "id", lookupField fs "imglink")
  | _ => .ok (.undefined, .undefined)

/-- Opaque handle for a decoded in-memory image. -/
abbrev Image := Nat

/-- Opaque handle for a face descriptor vector. -/
abbrev Descriptor := Nat

/-- The relevant observable parts of a `node-fetch` response. -/
structure FetchResponse where
  ok : Bool
  statusText : String
  buffer : Nat

/-- The three face-api.js nets the handler loads from disk. -/
inductive Net : Type
  | faceRecognitionNet
  | faceLandmark68Net
  | ssdMobilenetv1
deriving DecidableEq

/-- External calls the handler issues, recorded in order as a trace. -/
inductive Event : Type
  | loadModel (net : Net)
  | fetch (url : String)
  | detectSingleFace (img : Image)
  | detectAllFaces (img : Image)
deriving DecidableEq

/-- Oracle for every external collaborator of the service: the HTTP transport,
the image decoder, the face-api.js model loads and detectors, and the
descriptor distance metric used by the matcher. -/
structure Env where
  fetchResult : String → Except String FetchResponse
  decodeImage : Nat → Except String Image
  loadNet : Net → Except String Unit
  detectSingleFace : Image → Option Descriptor
  detectAllFaces : Image → List Descriptor
  dist : Descriptor → Descriptor → Rat

/-- `loadImage(url)` from the source: fetch the URL, throw a descriptive error
when the HTTP status is not ok, otherwise decode the body bytes into an image.
The try/catch in the source only logs and rethrows, so it has no semantic
effect. -/
def loadImage (env : Env) (url : String) : Except String Image :=
  match env.fetchResult url with
  | .error e => .error e
  | .ok response =>
    if !response.ok then
      .error ("Failed to fetch image: " ++ response.statusText)
    else
      env.decodeImage response.buffer

/-- The `Promise.all` of the three `loadFromDisk` calls: succeeds when all
three loads succeed, otherwise fails with the message of the first failing
load in listed order (the embedding determinizes the race on the rejection
reason; which load's message wins does not affect any claim). -/
def loadAllModels (env : Env) : Except String Unit :=
  match env.loadNet .faceRecognitionNet with
  | .error e => .error e
  | .ok _ =>
    match env.loadNet .faceLandmark68Net with
    | .error e => .error e
    | .ok _ =>
      match env.loadNet .ssdMobilenetv1 with
      | .error e => .error e
      | .ok _ => .ok ()

/-- `faceapi.LabeledFaceDescriptors`: a label and its descriptor vectors. -/
structure LabeledFaceDescriptors where
  label : String
  descriptors : List Descriptor

/-- `faceapi.FaceMatch`: a label together with a distance. -/
structure FaceMatch where
  label : String
  distance : Rat

/-- `faceapi.FaceMatcher`: the labeled descriptor set and distance threshold
the handler seeds it with. -/
structure FaceMatcher where
  labeledDescriptors : List LabeledFaceDescriptors
  distanceThreshold : Rat

/-- Mean distance from a query descriptor to a label's descriptor vectors
(face-api.js `computeMeanDistance`; in this service every label carries exactly
one vector, so the mean is the single distance). -/
def meanDistance (env : Env) (query : Descriptor) (ds : List Descriptor) : Rat :=
  (ds.map (env.dist query)).sum / ds.length

/-- Modelled from the spec: the external matcher (face-api.js `FaceMatcher`,
an out-of-scope collaborator) returns, for a query descriptor, the label of
the closest labeled descriptor together with that distance, or the label
"unknown" with that distance when the nearest distance is not within the
matcher's threshold. -/
def FaceMatcher.findBestMatch (m : FaceMatcher) (env : Env) (query : Descriptor) : FaceMatch :=
  let candidates := m.labeledDescriptors.map (fun l =>
    FaceMatch.mk l.label (meanDistance env query l.descriptors))
  match candidates with
  | [] => FaceMatch.mk "unknown" 0
  | c :: cs =>
    let best := cs.foldl (fun b x => if b.distance ≤ x.distance then b else x) c
    if best.distance < m.distanceThreshold then best
    else FaceMatch.mk "unknown" best.distance

/-- The body of one dataset entry's async closure inside `loadLabeledImages`:
destructure the entry (which throws, escaping the whole batch, on `null` or
`undefined`); skip (yield `none`) on falsy `id`/`imglink`; then, inside the
per-entry try, load the image and extract a single face descriptor, skipping
on load failure or when no face is detected.  The second component is the
trace of external calls made for the entry. -/
def processEntry (env : Env) (data : JSValue) :
    Except String (Option LabeledFaceDescriptors) × List Event :=
  match destructure data with
  | .error e => (.error e, [])
  | .ok (id, imglink) =>
    if !truthy id || !truthy imglink then
      (.ok none, [])
    else
      let url := jsToString imglink
      match loadImage env url with
      | .error _ => (.ok none, [Event.fetch url])
      | .ok img =>
        match env.detectSingleFace img with
        | none => (.ok none, [Event.fetch url, Event.detectSingleFace img])
        | some d =>
          (.ok (some (LabeledFaceDescriptors.mk (jsToString id) [d])),
           [Event.fetch url, Event.detectSingleFace img])

/-- The `Promise.all(dataset.map(...))` of `loadLabeledImages`: every entry is
processed and the placeholder results collected in order; if any entry's
closure throws (only destructuring can), the batch rejects with that error. -/
def mapEntries (env : Env) : List JSValue →
    Except String (List (Option LabeledFaceDescriptors)) × List Event
  | [] => (.ok [], [])
  | data :: rest =>
    match processEntry env data with
    | (.error e, evs) => (.error e, evs)
    | (.ok r, evs) =>
      match mapEntries env rest with
      | (.error e, evs2) => (.error e, evs ++ evs2)
      | (.ok rs, evs2) => (.ok (r :: rs), evs ++ evs2)

/-- `loadLabeledImages(dataset)` from the source: fan out over the entries,
then filter out the `null` placeholders and return the surviving labeled
descriptors. -/
def loadLabeledImages (env : Env) (dataset : List JSValue) :
    Except String (List LabeledFaceDescriptors) × List Event :=
  match mapEntries env dataset with
  | (.error e, evs) => (.error e, evs)
  | (.ok rs, evs) => (.ok (rs.filterMap (fun r => r)), evs)

/-- An HTTP response: status code and the object passed to `res.json`. -/
structure Response where
  status : Nat
  body : JSValue

/-- Body of the 400 response for a missing or non-array `dataset`. -/
def invalidDatasetBody (dataset : JSValue) : JSValue :=
  .obj [("error", .str "Invalid dataset format"), ("received", dataset)]

/-- Body of the 400 response for a falsy `group_img`. -/
def missingGroupImgBody : JSValue :=
  .obj [("error", .str "Missing group_img")]

/-- Body of the 500 response when model loading fails. -/
def modelLoadFailureBody (msg : String) : JSValue :=
  .obj [("error", .str "Failed to load face recognition models"),
        ("message", .str msg)]

/-- Body of the 400 response when no valid descriptors were produced. -/
def noDescriptorsBody : JSValue :=
  .obj [("error", .str "No valid face descriptors could be generated from the dataset")]

/-- Body of the 500 response when fetching or decoding the group image fails. -/
def groupImageFailureBody (msg : String) : JSValue :=
  .obj [("error", .str "Failed to process group image"), ("message", .str msg)]

/-- Body of the catch-all 500 response of the outer try. -/
def internalErrorBody (msg : String) : JSValue :=
  .obj [("error", .str "Internal server error"), ("message", .str msg)]

/-- Body of the 200 success response: `{success:true, matches:[{label,distance},...]}`. -/
def successBody (results : List FaceMatch) : JSValue :=
  .obj [("success", .bool true),
        ("matches", .arr (results.map (fun r =>
          .obj [("label", .str r.label), ("distance", .num r.distance)])))]

/-- The three model-load events, in the order the `Promise.all` lists them. -/
def modelEvents : List Event :=
  [Event.loadModel .faceRecognitionNet,
   Event.loadModel .faceLandmark68Net,
   Event.loadModel .ssdMobilenetv1]

/-- The `POST /` handler: validate `dataset` and `group_img`, load the three
models, build the labeled descriptors, construct the matcher with threshold
0.6, load the group image, detect all faces and match each.  Per-stage errors
map to the source's respective 4xx/5xx bodies; an error escaping
`loadLabeledImages` reaches the outer catch as a 500 internal error.  The
second component is the ordered trace of external calls. -/
def handler (env : Env) (body : JSValue) : Response × List Event :=
  let dataset := getField body "dataset"
  let group_img := getField body "group_img"
  if !truthy dataset || !isArray dataset then
    (Response.mk 400 (invalidDatasetBody dataset), [])
  else if !truthy group_img then
    (Response.mk 400 missingGroupImgBody, [])
  else
    match loadAllModels env with
    | .error msg => (Response.mk 500 (modelLoadFailureBody msg), modelEvents)
    | .ok _ =>
      match loadLabeledImages env (asArray dataset) with
      | (.error msg, evs) =>
        (Response.mk 500 (internalErrorBody msg), modelEvents ++ evs)
      | (.ok labeledFaceDescriptors, evs) =>
        if labeledFaceDescriptors.length = 0 then
          (Response.mk 400 noDescriptorsBody, modelEvents ++ evs)
        else
          let faceMatcher := FaceMatcher.mk labeledFaceDescriptors (6/10)
          let url := jsToString group_img
          match loadImage env url with
          | .error msg =>
            (Response.mk 500 (groupImageFailureBody msg),
             modelEvents ++ evs ++ [Event.fetch url])
          | .ok image =>
            let detections := env.detectAllFaces image
            let results := detections.map (faceMatcher.findBestMatch env)
            (Response.mk 200 (successBody results),
             modelEvents ++ evs ++ [Event.fetch url, Event.detectAllFaces image])

/-! ### Concrete environments and bodies used to instantiate the theorems -/

/-- An environment in which every external call succeeds: every fetch returns
an ok response with buffer 0, decoding returns the buffer as the image handle,
all three model loads succeed, single-face detection always finds descriptor 7,
the group detector finds descriptors 7 and 8, and the metric is discrete. -/
def envOk : Env where
  fetchResult := fun _ => .ok (FetchResponse.mk true "OK" 0)
  decodeImage := fun b => .ok b
  loadNet := fun _ => .ok ()
  detectSingleFace := fun _ => some 7
  detectAllFaces := fun _ => [7, 8]
  dist := fun a b => if a = b then 0 else 1

/-- Like `envOk` but every model load fails. -/
def envModelFail : Env :=
  { envOk with loadNet := fun _ => .error "weights missing" }

/-- Like `envOk` but the URL "g" answers with an HTTP error (status text
"Not Found"); other URLs still succeed. -/
def envFetch404 : Env :=
  { envOk with fetchResult := (fun url =>
      if url = "g" then .ok (FetchResponse.mk false "Not Found" 0)
      else .ok (FetchResponse.mk true "OK" 0)) }

/-- A well-formed request body: one reference entry and a group image URL. -/
def body0 : JSValue :=
  .obj [("dataset", .arr [.obj [("id", .str "alice"), ("imglink", .str "a")]]),
        ("group_img", .str "g")]

/-- A body with no `dataset` field. -/
def bodyNoDataset : JSValue := .obj [("group_img", .str "g")]

/-- A body with a valid `dataset` but no `group_img`. -/
def bodyNoGroup : JSValue :=
  .obj [("dataset", .arr [.obj [("id", .str "alice"), ("imglink", .str "a")]])]

/-- A reference entry with both fields present. -/
def entryAlice : JSValue := .obj [("id", .str "alice"), ("imglink", .str "a")]

/-- A reference entry with an empty (falsy) `id` and no `imglink`. -/
def skipEntry : JSValue := .obj [("id", .str "")]

/-- A body whose dataset contains a null entry (destructuring throws). -/
def bodyNullEntry : JSValue :=
  .obj [("dataset", .arr [JSValue.null, entryAlice]), ("group_img", .str "g")]

/-- A body whose dataset contains the primitive entry `5`. -/
def bodyNumEntry : JSValue :=
  .obj [("dataset", .arr [.num 5]), ("group_img", .str "g")]

/-- JS object test (`typeof`-style: arrays are objects; primitives,
`null`-as-destructurable and `undefined` are not — destructuring a primitive
succeeds with undefined fields, destructuring `null`/`undefined` throws). -/
def isObject : JSValue → Bool
  | .obj _ => true
  | .arr _ => true
  | _ => false

/-- A body whose dataset is the empty array (passes the array check). -/
def bodyEmptyDataset : JSValue :=
  .obj [("dataset", .arr []), ("group_img", .str "g")]

/-! ### Helper lemmas -/

/-- Arrays are truthy, so the `!dataset` disjunct never fires on an array. -/
theorem truthy_of_isArray {v : JSValue} (h : isArray v = true) : truthy v = true := by
  cases v <;> simp_all [isArray, truthy]

/-- The handler's first validation branch: invalid `dataset` yields the 400
invalid-dataset response with an empty trace. -/
theorem handler_invalid_dataset (env : Env) (body : JSValue)
    (h : truthy (getField body "dataset") = false ∨
         isArray (getField body "dataset") = false) :
    handler env body =
      (Response.mk 400 (invalidDatasetBody (getField body "dataset")), []) := by
  unfold handler
  rcases h with h | h <;> simp [h]

/-- The handler's second validation branch: array `dataset` but falsy
`group_img` yields the 400 missing-group_img response with an empty trace. -/
theorem handler_missing_group (env : Env) (body : JSValue)
    (harr : isArray (getField body "dataset") = true)
    (hgi : truthy (getField body "group_img") = false) :
    handler env body = (Response.mk 400 missingGroupImgBody, []) := by
  unfold handler
  simp [harr, truthy_of_isArray harr, hgi]

/-! ### C4: validation responses -/

/-- C4: if the body's `dataset` is absent or not an array, the handler answers
400 with `{error:"Invalid dataset format", received:<dataset>}`; if `dataset`
is an array but `group_img` is falsy or absent, it answers 400 with
`{error:"Missing group_img"}`. -/
theorem c4_validation_responses (env : Env) (body : JSValue) :
    ((truthy (getField body "dataset") = false ∨ isArray (getField body "dataset") = false) →
      handler env body = (Response.mk 400 (invalidDatasetBody (getField body "dataset")), [])) ∧
    (isArray (getField body "dataset") = true →
      truthy (getField body "group_img") = false →
      handler env body = (Response.mk 400 missingGroupImgBody, [])) :=
  ⟨handler_invalid_dataset env body, handler_missing_group env body⟩

/-- Instantiation of `c4_validation_responses`: a body without `dataset` gets
the invalid-dataset 400, and a body without `group_img` gets the
missing-group_img 400. -/
theorem c4_validation_responses_witness :
    handler envOk bodyNoDataset =
      (Response.mk 400 (invalidDatasetBody (getField bodyNoDataset "dataset")), []) ∧
    handler envOk bodyNoGroup = (Response.mk 400 missingGroupImgBody, []) :=
  ⟨(c4_validation_responses envOk bodyNoDataset).1 (Or.inl rfl),
   (c4_validation_responses envOk bodyNoGroup).2 rfl rfl⟩

/-! ### C10: check order and absence of side effects on validation failure -/

/-- C10: the `dataset` check runs before the `group_img` check — when the
dataset is invalid the 400 body is the invalid-dataset one regardless of
`group_img` — and both 400 validation paths issue no external calls at all
(empty trace: no model load, no fetch). -/
theorem c10_checks_ordered (env : Env) (body : JSValue) :
    ((truthy (getField body "dataset") = false ∨ isArray (getField body "dataset") = false) →
      (handler env body).1.body = invalidDatasetBody (getField body "dataset") ∧
      (handler env body).2 = []) ∧
    (isArray (getField body "dataset") = true →
      truthy (getField body "group_img") = false →
      (handler env body).2 = []) := by
  constructor
  · intro h
    rw [handler_invalid_dataset env body h]
    exact ⟨rfl, rfl⟩
  · intro harr hgi
    rw [handler_missing_group env body harr hgi]

/-- Instantiation of `c10_checks_ordered`: on a body with neither field, the
response body is the invalid-dataset one and the trace is empty; on a body
missing only `group_img` the trace is also empty. -/
theorem c10_checks_ordered_witness :
    ((handler envOk (JSValue.obj [])).1.body =
        invalidDatasetBody (getField (JSValue.obj []) "dataset") ∧
      (handler envOk (JSValue.obj [])).2 = []) ∧
    (handler envOk bodyNoGroup).2 = [] :=
  ⟨(c10_checks_ordered envOk (JSValue.obj [])).1 (Or.inl rfl),
   (c10_checks_ordered envOk bodyNoGroup).2 rfl rfl⟩

/-! ### C7: models are loaded first; model-load failure short-circuits -/

/-- C7: once validation passes, the trace begins with the three model-load
events (so the loads precede every fetch and detection call), and when model
loading fails the handler answers 500 with the load's message and the trace is
exactly the three load events — no reference processing, no fetch. -/
theorem c7_models_loaded_first (env : Env) (body : JSValue)
    (harr : isArray (getField body "dataset") = true)
    (hgi : truthy (getField body "group_img") = true) :
    (∃ rest, (handler env body).2 = modelEvents ++ rest) ∧
    (∀ msg, loadAllModels env = .error msg →
      handler env body = (Response.mk 500 (modelLoadFailureBody msg), modelEvents)) := by
  have hds := truthy_of_isArray harr
  constructor
  · cases hm : loadAllModels env with
    | error msg =>
      refine ⟨[], ?_⟩
      unfold handler
      simp [harr, hds, hgi, hm]
    | ok u =>
      cases u
      rcases hl : loadLabeledImages env (asArray (getField body "dataset")) with ⟨r, evs⟩
      cases r with
      | error msg =>
        refine ⟨evs, ?_⟩
        unfold handler
        simp [harr, hds, hgi, hm, hl]
      | ok lfds =>
        by_cases hlen : lfds.length = 0
        · refine ⟨evs, ?_⟩
          unfold handler
          simp [harr, hds, hgi, hm, hl, hlen]
        · cases hi : loadImage env (jsToString (getField body "group_img")) with
          | error msg =>
            refine ⟨evs ++ [Event.fetch (jsToString (getField body "group_img"))], ?_⟩
            unfold handler
            simp [harr, hds, hgi, hm, hl, hlen, hi, List.append_assoc]
          | ok img =>
            refine ⟨evs ++ [Event.fetch (jsToString (getField body "group_img")),
                            Event.detectAllFaces img], ?_⟩
            unfold handler
            simp [harr, hds, hgi, hm, hl, hlen, hi, List.append_assoc]
  · intro msg hm
    unfold handler
    simp [harr, hds, hgi, hm]

/-- Instantiation of `c7_models_loaded_first` in an environment where every
model load fails: the three load events open the trace, and the handler
answers 500 with the load failure body and performs nothing else. -/
theorem c7_models_loaded_first_witness :
    (∃ rest, (handler envModelFail body0).2 = modelEvents ++ rest) ∧
    handler envModelFail body0 =
      (Response.mk 500 (modelLoadFailureBody "weights missing"), modelEvents) :=
  ⟨(c7_models_loaded_first envModelFail body0 rfl rfl).1,
   (c7_models_loaded_first envModelFail body0 rfl rfl).2 "weights missing" rfl⟩

/-! ### C5: zero descriptors short-circuits before matcher and group image -/

/-- Reference-entry processing only ever fetches and runs single-face
detection: its trace never contains a group-detection event. -/
theorem processEntry_no_detectAll (env : Env) (data : JSValue) (i : Image) :
    Event.detectAllFaces i ∉ (processEntry env data).2 := by
  unfold processEntry
  cases hd : destructure data with
  | error e => simp
  | ok p =>
    obtain ⟨idv, linkv⟩ := p
    by_cases hc : (!truthy idv || !truthy linkv) = true
    · simp [hc]
    · simp only [hc]
      cases hi : loadImage env (jsToString linkv) with
      | error e => simp
      | ok img =>
        cases hs : env.detectSingleFace img <;> simp [hs]

/-- The fan-out over the dataset never issues a group-detection event. -/
theorem mapEntries_no_detectAll (env : Env) (ds : List JSValue) (i : Image) :
    Event.detectAllFaces i ∉ (mapEntries env ds).2 := by
  induction ds with
  | nil => simp [mapEntries]
  | cons d rest ih =>
    unfold mapEntries
    rcases hp : processEntry env d with ⟨r, evs⟩
    have hnd : Event.detectAllFaces i ∉ evs := by
      have := processEntry_no_detectAll env d i
      rw [hp] at this
      exact this
    cases r with
    | error e => simpa using hnd
    | ok r0 =>
      rcases hr : mapEntries env rest with ⟨rs, evs2⟩
      have hnd2 : Event.detectAllFaces i ∉ evs2 := by
        have := ih
        rw [hr] at this
        exact this
      cases rs <;> simp_all

/-- `loadLabeledImages` has the same trace as its fan-out. -/
theorem loadLabeledImages_snd (env : Env) (ds : List JSValue) :
    (loadLabeledImages env ds).2 = (mapEntries env ds).2 := by
  unfold loadLabeledImages
  rcases mapEntries env ds with ⟨r, evs⟩
  cases r <;> rfl

/-- C5: when the reference processor yields zero valid descriptors, the
handler answers 400 with the no-descriptors body, the trace consists only of
the model loads and the reference-processing events (no group-image fetch is
appended, nothing after the check runs), and in particular no group face
detection ever happens. -/
theorem c5_no_valid_descriptors (env : Env) (body : JSValue) (evs : List Event)
    (harr : isArray (getField body "dataset") = true)
    (hgi : truthy (getField body "group_img") = true)
    (hm : loadAllModels env = .ok ())
    (hl : loadLabeledImages env (asArray (getField body "dataset")) = (.ok [], evs)) :
    handler env body = (Response.mk 400 noDescriptorsBody, modelEvents ++ evs) ∧
    (∀ i : Image, Event.detectAllFaces i ∉ (handler env body).2) := by
  have hds := truthy_of_isArray harr
  have hresp : handler env body = (Response.mk 400 noDescriptorsBody, modelEvents ++ evs) := by
    unfold handler
    simp [harr, hds, hgi, hm, hl]
  refine ⟨hresp, ?_⟩
  intro i
  rw [hresp]
  have h1 : Event.detectAllFaces i ∉ evs := by
    have h2 := mapEntries_no_detectAll env (asArray (getField body "dataset")) i
    rw [← loadLabeledImages_snd, hl] at h2
    exact h2
  simp only [List.mem_append, modelEvents]
  rintro (h | h)
  · simp at h
  · exact h1 h

/-- Instantiation of `c5_no_valid_descriptors` at the empty dataset: the
handler answers 400 with the no-descriptors body after only the three model
loads, and no group detection happens. -/
theorem c5_no_valid_descriptors_witness :
    handler envOk bodyEmptyDataset =
      (Response.mk 400 noDescriptorsBody, modelEvents ++ []) ∧
    (∀ i : Image, Event.detectAllFaces i ∉ (handler envOk bodyEmptyDataset).2) :=
  c5_no_valid_descriptors envOk bodyEmptyDataset [] rfl rfl rfl rfl

/-! ### C6: non-ok HTTP status on the group image -/

/-- C6: a fetch that answers with a non-ok HTTP status makes `loadImage` fail
with the descriptive message `"Failed to fetch image: " ++ statusText` (the
image is never decoded), and when this happens for the group image of an
otherwise successful request the handler answers 500 with
`{error:"Failed to process group image", message}` where the message carries
that status text. -/
theorem c6_group_fetch_failure (env : Env) (url : String) (resp : FetchResponse)
    (body : JSValue) (lfds : List LabeledFaceDescriptors) (evs : List Event)
    (hfetch : env.fetchResult url = .ok resp) (hnotok : resp.ok = false)
    (harr : isArray (getField body "dataset") = true)
    (hgi : truthy (getField body "group_img") = true)
    (hurl : jsToString (getField body "group_img") = url)
    (hm : loadAllModels env = .ok ())
    (hl : loadLabeledImages env (asArray (getField body "dataset")) = (.ok lfds, evs))
    (hne : lfds ≠ []) :
    loadImage env url = .error ("Failed to fetch image: " ++ resp.statusText) ∧
    (handler env body).1 = Response.mk 500
      (groupImageFailureBody ("Failed to fetch image: " ++ resp.statusText)) := by
  have hds := truthy_of_isArray harr
  have hload : loadImage env url = .error ("Failed to fetch image: " ++ resp.statusText) := by
    unfold loadImage
    simp [hfetch, hnotok]
  refine ⟨hload, ?_⟩
  have hlen : ¬ lfds.length = 0 := by
    simpa [List.length_eq_zero] using hne
  unfold handler
  simp [harr, hds, hgi, hm, hl, hlen, hurl, hload]

/-- Instantiation of `c6_group_fetch_failure`: the group URL "g" answers 404
Not Found while the reference image loads fine; the handler answers 500 with
the transport's status text inside the message. -/
theorem c6_group_fetch_failure_witness :
    loadImage envFetch404 "g" = .error ("Failed to fetch image: " ++ "Not Found") ∧
    (handler envFetch404 body0).1 = Response.mk 500
      (groupImageFailureBody ("Failed to fetch image: " ++ "Not Found")) :=
  c6_group_fetch_failure envFetch404 "g" (FetchResponse.mk false "Not Found" 0) body0
    [LabeledFaceDescriptors.mk "alice" [7]]
    [Event.fetch "a", Event.detectSingleFace 0]
    rfl rfl rfl rfl rfl rfl rfl (List.cons_ne_nil _ _)

/-! ### C1: shape of the success response -/

/-- Reading `matches` back out of a success body yields the match objects. -/
theorem getField_successBody (results : List FaceMatch) :
    getField (successBody results) "matches" =
      .arr (results.map (fun r =>
        .obj [("label", .str r.label), ("distance", .num r.distance)])) := rfl

/-- The success path of the handler: with validation passed, models loaded, a
non-empty descriptor list and a decodable group image, the response is 200
with the success body built from the detections. -/
theorem handler_success (env : Env) (body : JSValue)
    (lfds : List LabeledFaceDescriptors) (evs : List Event) (img : Image)
    (harr : isArray (getField body "dataset") = true)
    (hgi : truthy (getField body "group_img") = true)
    (hm : loadAllModels env = .ok ())
    (hl : loadLabeledImages env (asArray (getField body "dataset")) = (.ok lfds, evs))
    (hne : lfds ≠ [])
    (himg : loadImage env (jsToString (getField body "group_img")) = .ok img) :
    (handler env body).1 = Response.mk 200 (successBody
      ((env.detectAllFaces img).map
        ((FaceMatcher.mk lfds (6/10)).findBestMatch env))) := by
  have hds := truthy_of_isArray harr
  have hlen : ¬ lfds.length = 0 := by
    simpa [List.length_eq_zero] using hne
  unfold handler
  simp [harr, hds, hgi, hm, hl, hlen, himg]

/-- C1: for a request whose dataset yields a non-empty labeled-descriptor set
and whose group image loads, the handler answers 200 with
`{success:true, matches:[...]}` where `matches` has exactly one entry per
detected face, in detector order, each carrying the matcher's best-match
label and distance for that face's descriptor. -/
theorem c1_success_matches (env : Env) (body : JSValue)
    (lfds : List LabeledFaceDescriptors) (evs : List Event) (img : Image)
    (harr : isArray (getField body "dataset") = true)
    (hgi : truthy (getField body "group_img") = true)
    (hm : loadAllModels env = .ok ())
    (hl : loadLabeledImages env (asArray (getField body "dataset")) = (.ok lfds, evs))
    (hne : lfds ≠ [])
    (himg : loadImage env (jsToString (getField body "group_img")) = .ok img) :
    (handler env body).1 = Response.mk 200 (successBody
      ((env.detectAllFaces img).map
        ((FaceMatcher.mk lfds (6/10)).findBestMatch env))) ∧
    getField (handler env body).1.body "success" = .bool true ∧
    (∃ ms : List JSValue,
      getField (handler env body).1.body "matches" = .arr ms ∧
      ms.length = (env.detectAllFaces img).length ∧
      ms = (env.detectAllFaces img).map (fun d =>
        let r := (FaceMatcher.mk lfds (6/10)).findBestMatch env d
        .obj [("label", .str r.label), ("distance", .num r.distance)])) := by
  have hmain := handler_success env body lfds evs img harr hgi hm hl hne himg
  refine ⟨hmain, ?_, ?_⟩
  · rw [hmain]
    rfl
  · rw [hmain]
    refine ⟨_, getField_successBody _, ?_, ?_⟩
    · simp
    · simp

/-- Instantiation of `c1_success_matches` in `envOk` with one reference entry
("alice") and two detected group faces: two match entries come back, in
detector order. -/
theorem c1_success_matches_witness :
    (handler envOk body0).1 = Response.mk 200 (successBody
      ((envOk.detectAllFaces 0).map
        ((FaceMatcher.mk [LabeledFaceDescriptors.mk "alice" [7]] (6/10)).findBestMatch envOk))) ∧
    getField (handler envOk body0).1.body "success" = .bool true ∧
    (∃ ms : List JSValue,
      getField (handler envOk body0).1.body "matches" = .arr ms ∧
      ms.length = (envOk.detectAllFaces 0).length ∧
      ms = (envOk.detectAllFaces 0).map (fun d =>
        let r := (FaceMatcher.mk [LabeledFaceDescriptors.mk "alice" [7]]
          (6/10)).findBestMatch envOk d
        .obj [("label", .str r.label), ("distance", .num r.distance)])) :=
  c1_success_matches envOk body0 [LabeledFaceDescriptors.mk "alice" [7]]
    [Event.fetch "a", Event.detectSingleFace 0] 0
    rfl rfl rfl rfl (List.cons_ne_nil _ _) rfl

/-! ### C8: matcher seeded with the surviving descriptors and threshold 0.6 -/

/-- The nearest-candidate fold always returns one of the candidates. -/
theorem foldl_pick_mem (c : FaceMatch) (cs : List FaceMatch) :
    cs.foldl (fun b x => if b.distance ≤ x.distance then b else x) c ∈ c :: cs := by
  induction cs generalizing c with
  | nil => simp
  | cons x xs ih =>
    simp only [List.foldl_cons]
    rcases List.mem_cons.mp (ih (if c.distance ≤ x.distance then c else x)) with h | h
    · by_cases hc : c.distance ≤ x.distance
      · rw [h, if_pos hc]
        exact List.mem_cons_self _ _
      · rw [h, if_neg hc]
        exact List.mem_cons.mpr (Or.inr (List.mem_cons_self _ _))
    · exact List.mem_cons.mpr (Or.inr (List.mem_cons.mpr (Or.inr h)))

/-- The matcher's unknown convention: when every label's mean distance to the
query exceeds the threshold, the best match is labeled "unknown". -/
theorem findBestMatch_unknown (env : Env) (lds : List LabeledFaceDescriptors)
    (thr : Rat) (q : Descriptor)
    (h : ∀ l ∈ lds, thr < meanDistance env q l.descriptors) :
    ((FaceMatcher.mk lds thr).findBestMatch env q).label = "unknown" := by
  cases lds with
  | nil => rfl
  | cons a as =>
    unfold FaceMatcher.findBestMatch
    simp only [List.map_cons]
    have hmem := foldl_pick_mem (FaceMatch.mk a.label (meanDistance env q a.descriptors))
      (as.map (fun l => FaceMatch.mk l.label (meanDistance env q l.descriptors)))
    have hgt : thr <
        ((as.map (fun l => FaceMatch.mk l.label (meanDistance env q l.descriptors))).foldl
          (fun b x => if b.distance ≤ x.distance then b else x)
          (FaceMatch.mk a.label (meanDistance env q a.descriptors))).distance := by
      rcases List.mem_cons.mp hmem with hh | hh
      · rw [hh]
        exact h a (List.mem_cons_self _ _)
      · rcases List.mem_map.mp hh with ⟨l, hlmem, heq⟩
        rw [← heq]
        exact h l (List.mem_cons.mpr (Or.inr hlmem))
    rw [if_neg (not_lt.mpr (le_of_lt hgt))]

/-- C8: on the success path every detected face is matched through the matcher
constructed from exactly the surviving labeled descriptors and the fixed
threshold 0.6, and a query whose distance to every label exceeds 0.6 is
labeled "unknown" by that matcher. -/
theorem c8_matcher_threshold (env : Env) (body : JSValue)
    (lfds : List LabeledFaceDescriptors) (evs : List Event) (img : Image) (q : Descriptor)
    (harr : isArray (getField body "dataset") = true)
    (hgi : truthy (getField body "group_img") = true)
    (hm : loadAllModels env = .ok ())
    (hl : loadLabeledImages env (asArray (getField body "dataset")) = (.ok lfds, evs))
    (hne : lfds ≠ [])
    (himg : loadImage env (jsToString (getField body "group_img")) = .ok img)
    (hfar : ∀ l ∈ lfds, (6/10 : Rat) < meanDistance env q l.descriptors) :
    (handler env body).1.body = successBody
      ((env.detectAllFaces img).map ((FaceMatcher.mk lfds (6/10)).findBestMatch env)) ∧
    ((FaceMatcher.mk lfds (6/10)).findBestMatch env q).label = "unknown" := by
  refine ⟨?_, findBestMatch_unknown env lfds (6/10) q hfar⟩
  rw [handler_success env body lfds evs img harr hgi hm hl hne himg]

/-- Instantiation of `c8_matcher_threshold` in `envOk` with query descriptor 8,
whose distance to the sole label "alice" is 1 > 0.6: the matcher labels it
"unknown". -/
theorem c8_matcher_threshold_witness :
    (handler envOk body0).1.body = successBody
      ((envOk.detectAllFaces 0).map
        ((FaceMatcher.mk [LabeledFaceDescriptors.mk "alice" [7]] (6/10)).findBestMatch envOk)) ∧
    ((FaceMatcher.mk [LabeledFaceDescriptors.mk "alice" [7]]
        (6/10)).findBestMatch envOk 8).label = "unknown" :=
  c8_matcher_threshold envOk body0 [LabeledFaceDescriptors.mk "alice" [7]]
    [Event.fetch "a", Event.detectSingleFace 0] 0 8
    rfl rfl rfl rfl (List.cons_ne_nil _ _) rfl
    (by
      intro l hl
      simp only [List.mem_singleton] at hl
      subst hl
      norm_num [meanDistance, envOk])

/-! ### C2: per-entry failures are absorbed and isolated -/

/-- An entry whose destructured `id` or `imglink` is falsy, whose image fails
to load, or in whose image no face is detected resolves to the null
placeholder — its closure never throws. -/
theorem processEntry_skips (env : Env) (data idv linkv : JSValue)
    (hd : destructure data = .ok (idv, linkv))
    (hskip : truthy idv = false ∨ truthy linkv = false ∨
      (∃ e, loadImage env (jsToString linkv) = .error e) ∨
      (∃ img, loadImage env (jsToString linkv) = .ok img ∧
        env.detectSingleFace img = none)) :
    (processEntry env data).1 = .ok none := by
  unfold processEntry
  rw [hd]
  rcases hskip with h | h | ⟨e, h⟩ | ⟨img, h1, h2⟩
  · simp [h]
  · simp [h]
  · cases hti : truthy idv <;> cases htl : truthy linkv <;> simp [hti, htl, h]
  · cases hti : truthy idv <;> cases htl : truthy linkv <;> simp [hti, htl, h1, h2]

/-- The labeled descriptors are the filtered fan-out results. -/
theorem loadLabeledImages_fst (env : Env) (ds : List JSValue) :
    (loadLabeledImages env ds).1 =
      ((mapEntries env ds).1).map (fun rs => rs.filterMap (fun r => r)) := by
  unfold loadLabeledImages
  rcases mapEntries env ds with ⟨r, evs⟩
  cases r <;> rfl

/-- Unfolding equation for the fan-out on a cons cell. -/
theorem mapEntries_cons (env : Env) (d : JSValue) (rest : List JSValue) :
    mapEntries env (d :: rest) =
      match processEntry env d with
      | (.error e, evs) => (.error e, evs)
      | (.ok r, evs) =>
        match mapEntries env rest with
        | (.error e, evs2) => (.error e, evs ++ evs2)
        | (.ok rs, evs2) => (.ok (r :: rs), evs ++ evs2) := rfl

/-- Dropping a null-placeholder entry from anywhere in the dataset does not
change the filtered fan-out outcome. -/
theorem mapEntries_skip (env : Env) (data : JSValue)
    (h : (processEntry env data).1 = .ok none) (pre post : List JSValue) :
    ((mapEntries env (pre ++ data :: post)).1).map (fun rs => rs.filterMap (fun r => r)) =
    ((mapEntries env (pre ++ post)).1).map (fun rs => rs.filterMap (fun r => r)) := by
  induction pre with
  | nil =>
    simp only [List.nil_append]
    rcases hp : processEntry env data with ⟨r, evs⟩
    rw [hp] at h
    simp only at h
    subst h
    rcases hr : mapEntries env post with ⟨rs, evs2⟩
    rw [mapEntries_cons, hp, hr]
    cases rs with
    | error e => rfl
    | ok rs0 => simp [Except.map, List.filterMap_cons]
  | cons d pre ih =>
    simp only [List.cons_append]
    rcases hp : processEntry env d with ⟨r, evs⟩
    rcases h1 : mapEntries env (pre ++ data :: post) with ⟨rs1, evs1⟩
    rcases h2 : mapEntries env (pre ++ post) with ⟨rs2, evs2⟩
    rw [mapEntries_cons, hp, h1, mapEntries_cons, hp, h2]
    rw [h1, h2] at ih
    cases r with
    | error e => rfl
    | ok r0 =>
      cases rs1 with
      | error e =>
        cases rs2 with
        | error e2 =>
          simp only [Except.map] at ih
          cases ih
          rfl
        | ok l2 => simp [Except.map] at ih
      | ok l1 =>
        cases rs2 with
        | error e2 => simp [Except.map] at ih
        | ok l2 =>
          simp only [Except.map, Except.ok.injEq] at ih
          cases r0 <;> simp [Except.map, List.filterMap_cons, ih]

/-- C2: an entry with falsy `id`/`imglink`, a failing image load, or no
detected face contributes nothing to the labeled-descriptor set, and removing
it from the dataset leaves the reference processor's outcome on all other
entries unchanged — the batch never aborts because of it. -/
theorem c2_entry_isolation (env : Env) (data idv linkv : JSValue)
    (pre post : List JSValue)
    (hd : destructure data = .ok (idv, linkv))
    (hskip : truthy idv = false ∨ truthy linkv = false ∨
      (∃ e, loadImage env (jsToString linkv) = .error e) ∨
      (∃ img, loadImage env (jsToString linkv) = .ok img ∧
        env.detectSingleFace img = none)) :
    (processEntry env data).1 = .ok none ∧
    (loadLabeledImages env (pre ++ data :: post)).1 =
      (loadLabeledImages env (pre ++ post)).1 := by
  have hnull := processEntry_skips env data idv linkv hd hskip
  refine ⟨hnull, ?_⟩
  rw [loadLabeledImages_fst, loadLabeledImages_fst, mapEntries_skip env data hnull pre post]

/-- Instantiation of `c2_entry_isolation`: an entry with empty `id` and no
`imglink` is skipped, and the batch result with it equals the batch result
without it. -/
theorem c2_entry_isolation_witness :
    (processEntry envOk skipEntry).1 = .ok none ∧
    (loadLabeledImages envOk ([entryAlice] ++ skipEntry :: [entryAlice])).1 =
      (loadLabeledImages envOk ([entryAlice] ++ [entryAlice])).1 :=
  c2_entry_isolation envOk skipEntry (.str "") .undefined [entryAlice] [entryAlice]
    rfl (Or.inl rfl)

/-! ### C3: cardinality preservation on all-good datasets -/

/-- An entry with truthy fields, a loading image and a detected face yields a
labeled descriptor whose label is the stringified `id` and whose vector list
is the single extracted descriptor. -/
theorem processEntry_success (env : Env) (data idv linkv : JSValue) (img : Image)
    (desc : Descriptor)
    (hd : destructure data = .ok (idv, linkv)) (hti : truthy idv = true)
    (htl : truthy linkv = true)
    (himg : loadImage env (jsToString linkv) = .ok img)
    (hdet : env.detectSingleFace img = some desc) :
    (processEntry env data).1 =
      .ok (some (LabeledFaceDescriptors.mk (jsToString idv) [desc])) := by
  unfold processEntry
  rw [hd]
  simp [hti, htl, himg, hdet]

/-- When every entry succeeds, the fan-out returns one `some` placeholder per
entry, pointwise as described. -/
theorem mapEntries_all_success (env : Env) (dataset : List JSValue)
    (h : ∀ d ∈ dataset, ∃ idv linkv img desc,
      destructure d = .ok (idv, linkv) ∧ truthy idv = true ∧ truthy linkv = true ∧
      loadImage env (jsToString linkv) = .ok img ∧
      env.detectSingleFace img = some desc) :
    ∃ rs, (mapEntries env dataset).1 = .ok rs ∧
      List.Forall₂ (fun d r => ∃ idv linkv desc,
        destructure d = .ok (idv, linkv) ∧
        r = some (LabeledFaceDescriptors.mk (jsToString idv) [desc])) dataset rs := by
  induction dataset with
  | nil => exact ⟨[], rfl, List.Forall₂.nil⟩
  | cons d rest ih =>
    obtain ⟨idv, linkv, img, desc, hd, hti, htl, himg, hdet⟩ := h d (List.mem_cons_self _ _)
    obtain ⟨rs, hrs, hall⟩ := ih (fun x hx => h x (List.mem_cons_of_mem _ hx))
    have hp := processEntry_success env d idv linkv img desc hd hti htl himg hdet
    refine ⟨some (LabeledFaceDescriptors.mk (jsToString idv) [desc]) :: rs, ?_, ?_⟩
    · unfold mapEntries
      rcases hpe : processEntry env d with ⟨r, evs⟩
      rw [hpe] at hp
      simp only at hp
      subst hp
      rcases hme : mapEntries env rest with ⟨rs2, evs2⟩
      rw [hme] at hrs
      simp only at hrs
      subst hrs
      rfl
    · exact List.Forall₂.cons ⟨idv, linkv, desc, hd, rfl⟩ hall

/-- Filtering a list of all-`some` placeholders keeps the cardinality and the
pointwise description. -/
theorem filterMap_all_some {ds : List JSValue} {rs : List (Option LabeledFaceDescriptors)}
    (hall : List.Forall₂ (fun d r => ∃ idv linkv desc,
      destructure d = .ok (idv, linkv) ∧
      r = some (LabeledFaceDescriptors.mk (jsToString idv) [desc])) ds rs) :
    (rs.filterMap (fun r => r)).length = ds.length ∧
    List.Forall₂ (fun d x => ∃ idv linkv,
      destructure d = .ok (idv, linkv) ∧ x.label = jsToString idv ∧
      x.descriptors.length = 1) ds (rs.filterMap (fun r => r)) := by
  induction hall with
  | nil => exact ⟨rfl, List.Forall₂.nil⟩
  | @cons d r ds2 rs2 hdr hrest ih =>
    obtain ⟨idv, linkv, desc, hd, hr⟩ := hdr
    subst hr
    simp only [List.filterMap_cons, List.length_cons]
    exact ⟨by simp [ih.1], List.Forall₂.cons ⟨idv, linkv, hd, rfl, rfl⟩ ih.2⟩

/-- C3: when every dataset entry has truthy `id` and `imglink`, its image
loads and a face is detected, the reference processor returns exactly one
labeled descriptor per entry, each carrying the stringified `id` as label and
a single-element vector list. -/
theorem c3_cardinality (env : Env) (dataset : List JSValue)
    (h : ∀ d ∈ dataset, ∃ idv linkv img desc,
      destructure d = .ok (idv, linkv) ∧ truthy idv = true ∧ truthy linkv = true ∧
      loadImage env (jsToString linkv) = .ok img ∧
      env.detectSingleFace img = some desc) :
    ∃ lfds, (loadLabeledImages env dataset).1 = .ok lfds ∧
      lfds.length = dataset.length ∧
      List.Forall₂ (fun d x => ∃ idv linkv,
        destructure d = .ok (idv, linkv) ∧ x.label = jsToString idv ∧
        x.descriptors.length = 1) dataset lfds := by
  obtain ⟨rs, hrs, hall⟩ := mapEntries_all_success env dataset h
  obtain ⟨hlen, hpt⟩ := filterMap_all_some hall
  refine ⟨rs.filterMap (fun r => r), ?_, hlen, hpt⟩
  rw [loadLabeledImages_fst, hrs]
  rfl

/-- Instantiation of `c3_cardinality` on a two-entry dataset: exactly two
labeled descriptors come back, labeled by the stringified ids, one vector
each. -/
theorem c3_cardinality_witness :
    ∃ lfds, (loadLabeledImages envOk [entryAlice, entryAlice]).1 = .ok lfds ∧
      lfds.length = [entryAlice, entryAlice].length ∧
      List.Forall₂ (fun d x => ∃ idv linkv,
        destructure d = .ok (idv, linkv) ∧ x.label = jsToString idv ∧
        x.descriptors.length = 1) [entryAlice, entryAlice] lfds :=
  c3_cardinality envOk [entryAlice, entryAlice] (by
    intro d hd
    rcases List.mem_cons.mp hd with h | h
    · subst h
      exact ⟨.str "alice", .str "a", 0, 7, rfl, rfl, rfl, rfl, rfl⟩
    · rcases List.mem_singleton.mp h with rfl
      exact ⟨.str "alice", .str "a", 0, 7, rfl, rfl, rfl, rfl, rfl⟩)

/-! ### C9: non-object dataset entries -/

/-- C9 counterexample: the entry `5` is not an object, yet destructuring it
does not throw — the entry is skipped per-entry exactly like an object with
missing fields, and the handler answers 400 (no valid descriptors), not the
500 internal error the claim asserts. -/
theorem c9_counterexample :
    isObject (JSValue.num 5) = false ∧
    (processEntry envOk (JSValue.num 5)).1 = .ok none ∧
    (handler envOk bodyNumEntry).1.status = 400 ∧
    (handler envOk bodyNumEntry).1.body = noDescriptorsBody ∧
    ¬ ((handler envOk bodyNumEntry).1.status = 500) := by
  refine ⟨rfl, rfl, rfl, rfl, ?_⟩
  decide

/-- A dataset containing a `null` or `undefined` entry makes the fan-out
reject: destructuring that entry throws. -/
theorem mapEntries_error_of_bad_entry (env : Env) (ds : List JSValue)
    (hmem : JSValue.null ∈ ds ∨ JSValue.undefined ∈ ds) :
    ∃ e, (mapEntries env ds).1 = .error e := by
  induction ds with
  | nil => rcases hmem with h | h <;> simp at h
  | cons d rest ih =>
    unfold mapEntries
    rcases hp : processEntry env d with ⟨r, evs⟩
    cases r with
    | error e => exact ⟨e, rfl⟩
    | ok r0 =>
      have hd : d ≠ JSValue.null ∧ d ≠ JSValue.undefined := by
        constructor <;> rintro rfl <;>
          simp [processEntry, destructure] at hp
      have hmem2 : JSValue.null ∈ rest ∨ JSValue.undefined ∈ rest := by
        rcases hmem with h | h
        · rcases List.mem_cons.mp h with h1 | h1
          · exact absurd h1.symm hd.1
          · exact Or.inl h1
        · rcases List.mem_cons.mp h with h1 | h1
          · exact absurd h1.symm hd.2
          · exact Or.inr h1
      obtain ⟨e, he⟩ := ih hmem2
      rcases hme : mapEntries env rest with ⟨rs2, evs2⟩
      rw [hme] at he
      simp only at he
      subst he
      exact ⟨e, rfl⟩

/-- C9 amended: a dataset entry that is `null` or `undefined` (rather than any
non-object) makes destructuring throw before the per-entry try block, the
whole batch rejects, and the handler answers 500
`{error:"Internal server error", message}`. -/
theorem c9_null_entry_internal_error (env : Env) (body : JSValue)
    (harr : isArray (getField body "dataset") = true)
    (hgi : truthy (getField body "group_img") = true)
    (hm : loadAllModels env = .ok ())
    (hmem : JSValue.null ∈ asArray (getField body "dataset") ∨
            JSValue.undefined ∈ asArray (getField body "dataset")) :
    ∃ msg, (handler env body).1 = Response.mk 500 (internalErrorBody msg) := by
  have hds := truthy_of_isArray harr
  obtain ⟨e, he⟩ := mapEntries_error_of_bad_entry env (asArray (getField body "dataset")) hmem
  have hl : (loadLabeledImages env (asArray (getField body "dataset"))).1 = .error e := by
    rw [loadLabeledImages_fst, he]
    rfl
  refine ⟨e, ?_⟩
  rcases hlp : loadLabeledImages env (asArray (getField body "dataset")) with ⟨r, evs⟩
  rw [hlp] at hl
  simp only at hl
  subst hl
  unfold handler
  simp [harr, hds, hgi, hm, hlp]

/-- Instantiation of `c9_null_entry_internal_error`: a dataset holding a null
entry yields a 500 internal-error response. -/
theorem c9_null_entry_internal_error_witness :
    ∃ msg, (handler envOk bodyNullEntry).1 = Response.mk 500 (internalErrorBody msg) :=
  c9_null_entry_internal_error envOk bodyNullEntry rfl rfl rfl
    (Or.inl (List.mem_cons_self _ _))

end WorkingApi
